import Mathlib

/-!
Verification of the credential-resolution and connection-acquisition
subsystem of the salesforce-mcp server, together with the `soql_query`
and `insert_record` tool handlers.

The embedding follows `src/index.mjs` (the full server: configSchema,
`getSalesforceConnection`, and the tool handlers) and
`src/unnamed/part_000` (the username/password-only server variant).
Network effects are made explicit: every function takes a `World`
describing the responses of the token endpoint, the login handshake and
the data operations, and returns alongside its result the list of
network calls it performed, in order.

JavaScript truthiness of the optional configuration strings is modelled
faithfully: `undefined` and `""` are both falsy.
-/

set_option maxRecDepth 16384

namespace SalesforceMcp

/-- JS truthiness of an optional string value: `undefined` (here `none`)
and the empty string are falsy; every other string is truthy. -/
def truthy : Option String → Bool
  | none => false
  | some s => !s.isEmpty

/-- JS `a || b` on an optional string with a default: the default is used
when the value is `undefined` or `""`. Models `config.instanceUrl ||
'https://login.salesforce.com'` and `config.loginUrl || ...`. -/
def jsOr (o : Option String) (d : String) : String :=
  match o with
  | none => d
  | some s => if s.isEmpty then d else s

/-- Reading a string field that the surrounding branch guard has already
checked to be truthy (so it is a present, non-empty string). -/
def getStr (o : Option String) : String := o.getD ""

/-- JS template-literal rendering of a possibly-undefined string:
undefined renders as the text `undefined`. -/
def jsShow : Option String → String
  | none => "undefined"
  | some s => s

/-- The configuration object of `src/index.mjs` (configSchema, lines
44-59): every authentication-relevant field is an optional string.
`loginUrl` is optional here; both the zod default and the code's
`config.loginUrl || 'https://login.salesforce.com'` are modelled by
`jsOr` at each use site. -/
structure Config where
  clientId : Option String := none
  clientSecret : Option String := none
  refreshToken : Option String := none
  username : Option String := none
  password : Option String := none
  securityToken : Option String := none
  accessToken : Option String := none
  instanceUrl : Option String := none
  loginUrl : Option String := none
  deriving Repr, DecidableEq

/-- Parsed JSON body returned by the OAuth token endpoint
(`POST .../services/oauth2/token`). -/
structure TokenResp where
  error : Option String := none
  error_description : Option String := none
  access_token : Option String := none
  instance_url : Option String := none
  deriving Repr, DecidableEq

/-- Result of a successful `conn.login(username, password)` call: jsforce
stores the returned access token and instance URL on the connection. -/
structure LoginOk where
  accessToken : String
  instanceUrl : String
  deriving Repr, DecidableEq

/-- Result of `conn.query(q)`: `totalSize`, `done` and the records (the
records are carried as their rendered JSON text, since no claim inspects
their structure). -/
structure QueryRes where
  totalSize : Nat
  done : Bool
  recordsJson : String
  deriving Repr, DecidableEq

/-- One element of a jsforce `create` result: `success` and `id` may be
absent (`none`), and `errors`, when present, is carried as a list of
already-rendered strings (the handler renders non-string entries with
`JSON.stringify`; that rendering is the carried string). -/
structure SaveRes where
  success : Option Bool := none
  id : Option String := none
  errors : Option (List String) := none
  deriving Repr, DecidableEq

/-- A jsforce `create` result is either a single save result or an array
of save results. -/
inductive CreateRes where
  | single (r : SaveRes)
  | many (rs : List SaveRes)
  deriving Repr, DecidableEq

/-- `Array.isArray(result) ? result[0] : result` — `none` when the array
is empty (JS `result[0]` is then `undefined`). -/
def firstResult : CreateRes → Option SaveRes
  | .single r => some r
  | .many [] => none
  | .many (r :: _) => some r

/-- A network call performed during acquisition or a data operation. -/
inductive NetCall where
  | tokenPost (url : String) (params : List (String × String))
  | loginCall (loginUrl : String) (username : String) (password : String)
  | soqlQuery (q : String)
  | createCall (sobjectType : String) (data : List (String × String))
  deriving Repr, DecidableEq

/-- The environment's responses: the token endpoint (keyed by URL and
form parameters), the legacy login handshake (keyed by login URL,
username and transmitted password), and the data operations. A
`.error e` models a thrown JS `Error` whose `message` is `e`. -/
structure World where
  tokenResponse : String → List (String × String) → TokenResp
  loginResult : String → String → String → Except String LoginOk
  queryResult : String → Except String QueryRes
  createResult : String → List (String × String) → Except String CreateRes

/-- OAuth2 options attached to a jsforce connection. -/
structure OAuth2Opts where
  clientId : String
  clientSecret : String
  redirectUri : Option String := none
  deriving Repr, DecidableEq

/-- A jsforce `Connection` as constructed by `getSalesforceConnection`;
after a successful `login` the access token and instance URL returned by
the handshake are stored on it. -/
structure Connection where
  instanceUrl : Option String := none
  accessToken : Option String := none
  refreshToken : Option String := none
  loginUrl : Option String := none
  oauth2 : Option OAuth2Opts := none
  deriving Repr, DecidableEq

/-- Token URL of the client-credentials branch (line 71):
`${config.instanceUrl || 'https://login.salesforce.com'}/services/oauth2/token`. -/
def tokenUrlOf (c : Config) : String :=
  jsOr c.instanceUrl "https://login.salesforce.com" ++ "/services/oauth2/token"

/-- Form parameters of the client-credentials POST (lines 73-77). -/
def ccParams (c : Config) : List (String × String) :=
  [("grant_type", "client_credentials"),
   ("client_id", getStr c.clientId),
   ("client_secret", getStr c.clientSecret)]

/-- Login URL used by the password branches (lines 120, 134):
`config.loginUrl || 'https://login.salesforce.com'`. -/
def loginUrlOf (c : Config) : String :=
  jsOr c.loginUrl "https://login.salesforce.com"

/-- The password transmitted by the password branches (lines 123-125 and
137-139, textually identical in both): `config.securityToken ?
config.password + config.securityToken : config.password`. -/
def sentPassword (c : Config) : String :=
  if truthy c.securityToken then getStr c.password ++ getStr c.securityToken
  else getStr c.password

/-- The message thrown when no branch matches (line 153). -/
def authMissingMsg : String :=
  "Authentication configuration missing. Provide either: (clientId + clientSecret) for Client Credentials Flow, (refreshToken + clientId + clientSecret), (username + password + clientId + clientSecret), or (username + password)"

/-- `getSalesforceConnection` of `src/index.mjs` (lines 68-154),
translated branch by branch. The result pairs the connection (or the
thrown error message) with the list of network calls performed. -/
def getSalesforceConnection (config : Config) (w : World) :
    Except String Connection × List NetCall :=
  -- Option 1: OAuth 2.0 Client Credentials Flow (line 70)
  if truthy config.clientId && truthy config.clientSecret &&
      !truthy config.username && !truthy config.refreshToken then
    let tokenUrl := tokenUrlOf config
    let params := ccParams config
    let data := w.tokenResponse tokenUrl params
    let calls := [NetCall.tokenPost tokenUrl params]
    if truthy data.error then
      (.error ("OAuth Client Credentials failed: " ++ jsShow data.error ++ " - "
          ++ jsShow data.error_description), calls)
    else
      (.ok { instanceUrl := data.instance_url, accessToken := data.access_token }, calls)
  -- Option 2: OAuth with Refresh Token (line 98)
  else if truthy config.refreshToken && truthy config.clientId &&
      truthy config.clientSecret then
    (.ok { oauth2 := some { clientId := getStr config.clientId,
                            clientSecret := getStr config.clientSecret,
                            redirectUri := some "http://localhost:3000/oauth/callback" },
           instanceUrl := config.instanceUrl,
           refreshToken := config.refreshToken }, [])
  -- Option 3: OAuth 2.0 Username-Password Flow (line 114)
  else if truthy config.username && truthy config.password &&
      truthy config.clientId && truthy config.clientSecret then
    let url := loginUrlOf config
    let pw := sentPassword config
    let calls := [NetCall.loginCall url (getStr config.username) pw]
    match w.loginResult url (getStr config.username) pw with
    | .ok r =>
        (.ok { oauth2 := some { clientId := getStr config.clientId,
                                clientSecret := getStr config.clientSecret },
               loginUrl := some url,
               instanceUrl := some r.instanceUrl,
               accessToken := some r.accessToken }, calls)
    | .error e => (.error e, calls)
  -- Option 4: Username/Password Flow (line 132)
  else if truthy config.username && truthy config.password then
    let url := loginUrlOf config
    let pw := sentPassword config
    let calls := [NetCall.loginCall url (getStr config.username) pw]
    match w.loginResult url (getStr config.username) pw with
    | .ok r =>
        (.ok { loginUrl := some url,
               instanceUrl := some r.instanceUrl,
               accessToken := some r.accessToken }, calls)
    | .error e => (.error e, calls)
  -- Option 5: Access Token (line 146)
  else if truthy config.instanceUrl && truthy config.accessToken then
    (.ok { instanceUrl := config.instanceUrl, accessToken := config.accessToken }, [])
  else
    (.error authMissingMsg, [])

/-- The authentication strategy a branch of `getSalesforceConnection`
realises, with the payload that branch uses. `select` below extracts the
branch decision as a pure function. -/
inductive AuthStrategy where
  | clientCredentials (tokenUrl clientId clientSecret : String)
  | refreshGrant (clientId clientSecret refreshToken : String) (instanceUrl : Option String)
  | passwordWithApp (clientId clientSecret username password loginUrl : String)
  | passwordOnly (username password loginUrl : String)
  | directToken (accessToken : Option String) (instanceUrl : Option String)
  deriving Repr, DecidableEq

/-- The bare kind of a strategy, without its payload. -/
inductive StrategyKind where
  | clientCredentials | refreshGrant | passwordWithApp | passwordOnly | directToken
  deriving Repr, DecidableEq

/-- Kind of a strategy value. -/
def AuthStrategy.kind : AuthStrategy → StrategyKind
  | .clientCredentials .. => .clientCredentials
  | .refreshGrant .. => .refreshGrant
  | .passwordWithApp .. => .passwordWithApp
  | .passwordOnly .. => .passwordOnly
  | .directToken .. => .directToken

/-- Strategy condition 1 — the guard of Option 1 (line 70):
`config.clientId && config.clientSecret && !config.username &&
!config.refreshToken`. -/
def selCond1 (c : Config) : Bool :=
  truthy c.clientId && truthy c.clientSecret &&
    !truthy c.username && !truthy c.refreshToken

/-- Strategy condition 2 — the guard of Option 2 (line 98):
`config.refreshToken && config.clientId && config.clientSecret`. -/
def selCond2 (c : Config) : Bool :=
  truthy c.refreshToken && truthy c.clientId && truthy c.clientSecret

/-- Strategy condition 3 — the guard of Option 3 (line 114):
`config.username && config.password && config.clientId &&
config.clientSecret`. -/
def selCond3 (c : Config) : Bool :=
  truthy c.username && truthy c.password &&
    truthy c.clientId && truthy c.clientSecret

/-- Strategy condition 4 — username and password present with no app
credentials: the code's Option 4 guard (line 132) is only
`config.username && config.password`, but it is reached after Option 3
failed, so as a standalone condition it carries the absence of the
client id/secret pair. -/
def selCond4 (c : Config) : Bool :=
  truthy c.username && truthy c.password &&
    !(truthy c.clientId && truthy c.clientSecret)

/-- Strategy condition 5 — the guard of Option 5 (line 146):
`config.instanceUrl && config.accessToken`. -/
def selCond5 (c : Config) : Bool :=
  truthy c.instanceUrl && truthy c.accessToken

/-- The strategy-selection decision of `getSalesforceConnection` (lines
68-154) as a pure function: the same guard chain, first match wins, with
each branch's payload; the final branch is the resolution failure with
the thrown message. -/
def select (c : Config) : Except String AuthStrategy :=
  if truthy c.clientId && truthy c.clientSecret &&
      !truthy c.username && !truthy c.refreshToken then
    .ok (.clientCredentials (tokenUrlOf c) (getStr c.clientId) (getStr c.clientSecret))
  else if truthy c.refreshToken && truthy c.clientId && truthy c.clientSecret then
    .ok (.refreshGrant (getStr c.clientId) (getStr c.clientSecret)
          (getStr c.refreshToken) c.instanceUrl)
  else if truthy c.username && truthy c.password &&
      truthy c.clientId && truthy c.clientSecret then
    .ok (.passwordWithApp (getStr c.clientId) (getStr c.clientSecret)
          (getStr c.username) (sentPassword c) (loginUrlOf c))
  else if truthy c.username && truthy c.password then
    .ok (.passwordOnly (getStr c.username) (sentPassword c) (loginUrlOf c))
  else if truthy c.instanceUrl && truthy c.accessToken then
    .ok (.directToken c.accessToken c.instanceUrl)
  else
    .error authMissingMsg

/-- The kind of the selected strategy, `none` on resolution failure. -/
def selKind (c : Config) : Option StrategyKind :=
  match select c with
  | .ok s => some s.kind
  | .error _ => none

/-- Result of one MCP tool invocation: the text of the single content
element and whether `isError` was set (absent models `false`). -/
structure ToolResult where
  text : String
  isError : Bool := false
  deriving Repr, DecidableEq

/-- Rendering of a successful query result, modelling
`JSON.stringify({totalSize, done, records}, null, 2)` (lines 173-177);
the records portion is the carried pre-rendered JSON. -/
def renderQueryRes (r : QueryRes) : String :=
  "\x7b\n  \"totalSize\": " ++ toString r.totalSize ++ ",\n  \"done\": "
    ++ (if r.done then "true" else "false") ++ ",\n  \"records\": "
    ++ r.recordsJson ++ "\n\x7d"

/-- The `soql_query` tool handler of `src/index.mjs` (lines 165-189):
acquires a fresh connection, runs the query, and maps any thrown error
to a structured `isError` result with message
`Error executing query: ...`. -/
def soqlQueryTool (config : Config) (w : World) (query : String) :
    ToolResult × List NetCall :=
  match getSalesforceConnection config w with
  | (.error e, calls) =>
      ({ text := "Error executing query: " ++ e, isError := true }, calls)
  | (.ok _conn, calls) =>
      match w.queryResult query with
      | .ok r =>
          ({ text := renderQueryRes r },
           calls ++ [NetCall.soqlQuery query])
      | .error e =>
          ({ text := "Error executing query: " ++ e, isError := true },
           calls ++ [NetCall.soqlQuery query])

/-- `JSON.stringify(recordData, null, 2)` over the record's fields; the
values are carried as their rendered JSON text. -/
def renderRecord (data : List (String × String)) : String :=
  "\x7b\n" ++ String.intercalate ",\n"
      (data.map fun p => "  \"" ++ p.1 ++ "\": " ++ p.2) ++ "\n\x7d"

/-- The error-list rendering of the failed-insert branch (lines
276-278): a present array joins its (rendered) entries with `, `; an
absent `errors` field renders as `undefined`. -/
def renderErrors : Option (List String) → String
  | some l => String.intercalate ", " l
  | none => "undefined"

/-- Message of the JS `TypeError` thrown by line 275 when the create
result is an empty array, so that `result[0]` is `undefined` and the
`in` operator is applied to it; the exact engine wording is irrelevant
to every claim, only that it is caught by the handler's `catch`. -/
def inOperatorTypeError : String :=
  "Cannot use in operator to search for success in undefined"

/-- The `insert_record` tool handler of `src/index.mjs` (lines 245-315).
`sobjectType` is optional here so that JS falsiness (`undefined` or
`""`) of the defensive `!sobjectType` check is modelled; `recordData` is
`none` when absent. -/
def insertRecordTool (config : Config) (w : World)
    (sobjectType : Option String) (recordData : Option (List (String × String))) :
    ToolResult × List NetCall :=
  if !truthy sobjectType then
    ({ text := "Error: sobjectType parameter is required", isError := true }, [])
  else if recordData.isNone || (recordData.getD []).isEmpty then
    ({ text := "Error: recordData parameter is required and must contain at least one field",
       isError := true }, [])
  else
    let sobj := getStr sobjectType
    let data := recordData.getD []
    match getSalesforceConnection config w with
    | (.error e, calls) =>
        ({ text := "Error inserting record: " ++ e, isError := true }, calls)
    | (.ok _conn, calls) =>
        let calls := calls ++ [NetCall.createCall sobj data]
        match w.createResult sobj data with
        | .error e =>
            ({ text := "Error inserting record: " ++ e, isError := true }, calls)
        | .ok res =>
            match firstResult res with
            | none =>
                ({ text := "Error inserting record: " ++ inOperatorTypeError,
                   isError := true }, calls)
            | some r =>
                if r.success = some false then
                  ({ text := "Failed to insert " ++ sobj ++ " record: "
                        ++ renderErrors r.errors, isError := true }, calls)
                else if !truthy r.id then
                  ({ text := "Failed to insert " ++ sobj
                        ++ " record: No record ID returned", isError := true }, calls)
                else
                  ({ text := "Successfully inserted " ++ sobj
                        ++ " record.\n\nRecord ID: " ++ getStr r.id
                        ++ "\n\nInserted data:\n" ++ renderRecord data }, calls)

/-- Whether a network call is a session-creation handshake (a token-
endpoint POST or a login call), as opposed to a data operation. -/
def isHandshake : NetCall → Bool
  | .tokenPost .. => true
  | .loginCall .. => true
  | _ => false

/-- Number of session-creation handshakes in a trace. -/
def countHandshakes (l : List NetCall) : Nat :=
  (l.filter isHandshake).length

/-- Decidable substring test, used to state what an error message does
and does not mention. -/
def containsSub (s pat : String) : Bool :=
  (List.range (s.length + 1)).any fun i => pat.toList.isPrefixOf (s.toList.drop i)

namespace Part000

/-- Configuration of `src/unnamed/part_000` (its configSchema, lines
7-12): username and password are required strings there. -/
structure Config where
  username : String
  password : String
  securityToken : Option String := none
  loginUrl : Option String := none
  deriving Repr, DecidableEq

/-- `getSalesforceConnection` of `src/unnamed/part_000` (lines 21-32):
always a direct username/password login, with the same
`password + securityToken` concatenation. -/
def getSalesforceConnection (config : Config) (w : World) :
    Except String Connection × List NetCall :=
  let url := jsOr config.loginUrl "https://login.salesforce.com"
  let pw := if truthy config.securityToken
    then config.password ++ getStr config.securityToken
    else config.password
  let calls := [NetCall.loginCall url config.username pw]
  match w.loginResult url config.username pw with
  | .ok r =>
      (.ok { loginUrl := some url,
             instanceUrl := some r.instanceUrl,
             accessToken := some r.accessToken }, calls)
  | .error e => (.error e, calls)

end Part000

/-- Whether a create result has the shape the handler reports as
success: a first element whose `success` is not `false` and whose `id`
is a present, non-empty string; a thrown error or an empty array never
does. -/
def goodCreate : Except String CreateRes → Bool
  | .error _ => false
  | .ok res =>
    match firstResult res with
    | none => false
    | some r => if r.success = some false then false else truthy r.id

/-! Concrete configurations and environments used by the witnesses and
counterexamples. -/

/-- Bundle of the client-credentials end-to-end scenario:
`{clientId:"id1", clientSecret:"sec1"}` with every other field absent. -/
def ccBundle : Config := { clientId := some "id1", clientSecret := some "sec1" }

/-- Bundle with client id, client secret and refresh token all set. -/
def refreshBundle : Config :=
  { clientId := some "id1", clientSecret := some "sec1", refreshToken := some "rt1" }

/-- Bundle with username and password only. -/
def userPassBundle : Config := { username := some "u", password := some "p" }

/-- Bundle `{username:"u", password:"p", securityToken:"tok"}` of the
password-only end-to-end scenario. -/
def userPassTokBundle : Config :=
  { username := some "u", password := some "p", securityToken := some "tok" }

/-- Bundle with only an instance URL and an already-issued access token. -/
def directBundle : Config :=
  { accessToken := some "00Dxx0000001",
    instanceUrl := some "https://org.example.my.salesforce.com" }

/-- The empty bundle: no field set. -/
def emptyBundle : Config := {}

/-- Environment whose token endpoint answers
`{"access_token":"T","instance_url":"https://org.my.salesforce.com"}`. -/
def wTokenOk : World where
  tokenResponse _ _ :=
    { access_token := some "T", instance_url := some "https://org.my.salesforce.com" }
  loginResult _ _ _ := .error "unused"
  queryResult _ := .error "unused"
  createResult _ _ := .error "unused"

/-- Environment whose token endpoint answers
`{"error":"invalid_grant","error_description":"authentication failure"}`. -/
def wTokenErr : World where
  tokenResponse _ _ :=
    { error := some "invalid_grant", error_description := some "authentication failure" }
  loginResult _ _ _ := .error "unused"
  queryResult _ := .error "unused"
  createResult _ _ := .error "unused"

/-- Environment where no endpoint answers anything useful. -/
def wNone : World where
  tokenResponse _ _ := {}
  loginResult _ _ _ := .error "unreachable"
  queryResult _ := .error "unreachable"
  createResult _ _ := .error "unreachable"

/-- Environment with a working login handshake and a working query
endpoint. -/
def wLoginOk : World where
  tokenResponse _ _ := {}
  loginResult _ _ _ := .ok { accessToken := "A0", instanceUrl := "https://inst.example" }
  queryResult _ := .ok { totalSize := 1, done := true, recordsJson := "[]" }
  createResult _ _ := .error "unused"

/-- Environment with a working login handshake whose data operations all
fail with an invalid-session provider response. -/
def wExpired : World where
  tokenResponse _ _ := {}
  loginResult _ _ _ := .ok { accessToken := "A0", instanceUrl := "https://inst.example" }
  queryResult _ := .error "INVALID_SESSION_ID: Session expired or invalid"
  createResult _ _ := .error "INVALID_SESSION_ID: Session expired or invalid"

/-- Environment whose create endpoint reports one successful save. -/
def wCreateOk : World where
  tokenResponse _ _ := {}
  loginResult _ _ _ := .error "unused"
  queryResult _ := .error "unused"
  createResult _ _ := .ok (.many [{ success := some true, id := some "003XX0001", errors := none }])

/-! ### Helper lemmas -/

/-- A present non-empty string is truthy. -/
theorem truthy_some (s : String) (h : s ≠ "") : truthy (some s) = true := by
  have he : s.isEmpty = false := by
    cases he : s.isEmpty
    · rfl
    · exact absurd ((String.isEmpty_iff s).mp he) h
  simp [truthy, he]

/-- When the client-credentials guard holds, `getSalesforceConnection`
takes the Option 1 branch. -/
theorem branch1_eval (c : Config) (w : World) (h1 : selCond1 c = true) :
    getSalesforceConnection c w =
      (let data := w.tokenResponse (tokenUrlOf c) (ccParams c)
       let calls := [NetCall.tokenPost (tokenUrlOf c) (ccParams c)]
       if truthy data.error then
         (.error ("OAuth Client Credentials failed: " ++ jsShow data.error ++ " - "
             ++ jsShow data.error_description), calls)
       else
         (.ok { instanceUrl := data.instance_url, accessToken := data.access_token },
          calls)) := by
  simp only [selCond1] at h1
  unfold getSalesforceConnection
  rw [if_pos h1]

/-- When username and password are present without the full app
credential pair, `getSalesforceConnection` takes the Option 4 branch. -/
theorem branch4_eval (c : Config) (w : World) (h4 : selCond4 c = true) :
    getSalesforceConnection c w =
      (match w.loginResult (loginUrlOf c) (getStr c.username) (sentPassword c) with
       | .ok r =>
           (.ok { loginUrl := some (loginUrlOf c),
                  instanceUrl := some r.instanceUrl,
                  accessToken := some r.accessToken },
            [NetCall.loginCall (loginUrlOf c) (getStr c.username) (sentPassword c)])
       | .error e =>
           (.error e,
            [NetCall.loginCall (loginUrlOf c) (getStr c.username) (sentPassword c)])) := by
  simp only [selCond4, Bool.and_eq_true] at h4
  obtain ⟨⟨hu, hp⟩, hnc⟩ := h4
  unfold getSalesforceConnection
  cases hcid : truthy c.clientId <;> cases hcs : truthy c.clientSecret <;>
    simp_all

/-! ### Claim theorems -/

/-- Claim C2: for the bundle `{clientId:"id1", clientSecret:"sec1"}`
with username and refreshToken absent, acquisition selects the
ClientCredentials strategy, issues exactly one POST to the default login
URL's `/services/oauth2/token` endpoint with
`grant_type=client_credentials`, and on a response
`{"access_token":"T","instance_url":"https://org.my.salesforce.com"}`
produces a session with access token `"T"`, instance URL
`"https://org.my.salesforce.com"` and no refresh token. -/
theorem client_credentials_end_to_end (w : World)
    (h : w.tokenResponse (tokenUrlOf ccBundle) (ccParams ccBundle) =
      { access_token := some "T", instance_url := some "https://org.my.salesforce.com" }) :
    select ccBundle = .ok (.clientCredentials
        "https://login.salesforce.com/services/oauth2/token" "id1" "sec1")
    ∧ ccParams ccBundle =
        [("grant_type", "client_credentials"), ("client_id", "id1"), ("client_secret", "sec1")]
    ∧ getSalesforceConnection ccBundle w =
        (.ok { instanceUrl := some "https://org.my.salesforce.com",
               accessToken := some "T", refreshToken := none },
         [NetCall.tokenPost "https://login.salesforce.com/services/oauth2/token"
            [("grant_type", "client_credentials"), ("client_id", "id1"),
             ("client_secret", "sec1")]]) := by
  refine ⟨rfl, rfl, ?_⟩
  rw [branch1_eval ccBundle w rfl]
  simp only [h]
  rfl

/-- Witness for C2 at the concrete environment `wTokenOk`. -/
theorem client_credentials_end_to_end_witness :
    wTokenOk.tokenResponse (tokenUrlOf ccBundle) (ccParams ccBundle) =
      { access_token := some "T", instance_url := some "https://org.my.salesforce.com" }
    ∧ (select ccBundle = .ok (.clientCredentials
          "https://login.salesforce.com/services/oauth2/token" "id1" "sec1")
      ∧ ccParams ccBundle =
          [("grant_type", "client_credentials"), ("client_id", "id1"), ("client_secret", "sec1")]
      ∧ getSalesforceConnection ccBundle wTokenOk =
          (.ok { instanceUrl := some "https://org.my.salesforce.com",
                 accessToken := some "T", refreshToken := none },
           [NetCall.tokenPost "https://login.salesforce.com/services/oauth2/token"
              [("grant_type", "client_credentials"), ("client_id", "id1"),
               ("client_secret", "sec1")]])) :=
  ⟨rfl, client_credentials_end_to_end wTokenOk rfl⟩

/-- Claim C3: whenever the client-credentials branch runs and the token
endpoint's JSON body carries an `error` field, the acquisition fails
with a message in which the provider's `error` and `error_description`
texts appear verbatim and unaltered — the message is exactly the fixed
prefix, the provider's error code, the fixed separator, and the
provider's description, with no other alteration. -/
theorem token_error_verbatim (c : Config) (w : World) (e d : String)
    (h1 : selCond1 c = true)
    (he : (w.tokenResponse (tokenUrlOf c) (ccParams c)).error = some e)
    (hne : e ≠ "")
    (hd : (w.tokenResponse (tokenUrlOf c) (ccParams c)).error_description = some d) :
    getSalesforceConnection c w =
      (.error ("OAuth Client Credentials failed: " ++ e ++ " - " ++ d),
       [NetCall.tokenPost (tokenUrlOf c) (ccParams c)]) := by
  rw [branch1_eval c w h1]
  simp only [he, hd, truthy_some e hne, if_true, jsShow]

/-- Witness for C3: the body
`{"error":"invalid_grant","error_description":"authentication failure"}`
yields the failure carrying `invalid_grant` and
`authentication failure`, both preserved as verbatim substrings of the
resulting message. -/
theorem token_error_verbatim_witness :
    selCond1 ccBundle = true
    ∧ (wTokenErr.tokenResponse (tokenUrlOf ccBundle) (ccParams ccBundle)).error
        = some "invalid_grant"
    ∧ (wTokenErr.tokenResponse (tokenUrlOf ccBundle) (ccParams ccBundle)).error_description
        = some "authentication failure"
    ∧ getSalesforceConnection ccBundle wTokenErr =
        (.error "OAuth Client Credentials failed: invalid_grant - authentication failure",
         [NetCall.tokenPost (tokenUrlOf ccBundle) (ccParams ccBundle)])
    ∧ containsSub "OAuth Client Credentials failed: invalid_grant - authentication failure"
        "invalid_grant" = true
    ∧ containsSub "OAuth Client Credentials failed: invalid_grant - authentication failure"
        "authentication failure" = true :=
  ⟨rfl, rfl, rfl,
   token_error_verbatim ccBundle wTokenErr "invalid_grant" "authentication failure"
     rfl rfl (by decide) rfl,
   by decide, by decide⟩

/-- Claim C1: strategy selection is a deterministic priority order over
the credential bundle with first match winning: a bundle satisfying
exactly one of the five strategy conditions selects that strategy and no
other, and a bundle with clientId, clientSecret and refreshToken all set
selects RefreshToken, never ClientCredentials. -/
theorem strategy_selection_priority (c : Config) :
    (selCond1 c = true → selCond2 c = false → selCond3 c = false →
      selCond4 c = false → selCond5 c = false →
      selKind c = some .clientCredentials)
    ∧ (selCond2 c = true → selCond1 c = false → selCond3 c = false →
        selCond4 c = false → selCond5 c = false →
        selKind c = some .refreshGrant)
    ∧ (selCond3 c = true → selCond1 c = false → selCond2 c = false →
        selCond4 c = false → selCond5 c = false →
        selKind c = some .passwordWithApp)
    ∧ (selCond4 c = true → selCond1 c = false → selCond2 c = false →
        selCond3 c = false → selCond5 c = false →
        selKind c = some .passwordOnly)
    ∧ (selCond5 c = true → selCond1 c = false → selCond2 c = false →
        selCond3 c = false → selCond4 c = false →
        selKind c = some .directToken)
    ∧ (truthy c.clientId = true → truthy c.clientSecret = true →
        truthy c.refreshToken = true →
        selKind c = some .refreshGrant) := by
  refine ⟨?_, ?_, ?_, ?_, ?_, ?_⟩ <;>
    (intros
     simp only [selCond1, selCond2, selCond3, selCond4, selCond5, selKind, select] at *
     cases hb1 : truthy c.clientId <;> cases hb2 : truthy c.clientSecret <;>
       cases hb3 : truthy c.username <;> cases hb4 : truthy c.refreshToken <;>
       cases hb5 : truthy c.password <;> cases hb6 : truthy c.instanceUrl <;>
       cases hb7 : truthy c.accessToken <;>
       simp_all [AuthStrategy.kind])

/-- Witness for C1: the bundle with clientId, clientSecret and
refreshToken all set satisfies exactly the RefreshToken condition and
selects RefreshToken (not ClientCredentials); the username/password-only
bundle satisfies exactly the PasswordOnly condition and selects
PasswordOnly. -/
theorem strategy_selection_priority_witness :
    (selCond2 refreshBundle = true ∧ selCond1 refreshBundle = false
      ∧ selCond3 refreshBundle = false ∧ selCond4 refreshBundle = false
      ∧ selCond5 refreshBundle = false
      ∧ selKind refreshBundle = some .refreshGrant)
    ∧ (truthy refreshBundle.clientId = true ∧ truthy refreshBundle.clientSecret = true
      ∧ truthy refreshBundle.refreshToken = true
      ∧ selKind refreshBundle = some .refreshGrant)
    ∧ (selCond4 userPassBundle = true ∧ selCond1 userPassBundle = false
      ∧ selCond2 userPassBundle = false ∧ selCond3 userPassBundle = false
      ∧ selCond5 userPassBundle = false
      ∧ selKind userPassBundle = some .passwordOnly) :=
  ⟨⟨rfl, rfl, rfl, rfl, rfl,
    (strategy_selection_priority refreshBundle).2.1 rfl rfl rfl rfl rfl⟩,
   ⟨rfl, rfl, rfl,
    (strategy_selection_priority refreshBundle).2.2.2.2.2 rfl rfl rfl⟩,
   ⟨rfl, rfl, rfl, rfl, rfl,
    (strategy_selection_priority userPassBundle).2.2.2.1 rfl rfl rfl rfl rfl⟩⟩

/-- Claim C4: in both password-based strategies (with and without app
credentials) and in the part_000 variant, the password transmitted to
the login handshake is the concatenation of the password and the
security token with no separator when a security token is present, and
the password unchanged when it is absent. -/
theorem password_token_concatenation :
    (∀ (c : Config) (t : String), c.securityToken = some t → t ≠ "" →
      sentPassword c = getStr c.password ++ t)
    ∧ (∀ c : Config, c.securityToken = none →
        sentPassword c = getStr c.password)
    ∧ (∀ (c : Config) (w : World), selCond3 c = true → truthy c.refreshToken = false →
        (getSalesforceConnection c w).2
          = [NetCall.loginCall (loginUrlOf c) (getStr c.username) (sentPassword c)])
    ∧ (∀ (c : Config) (w : World), selCond4 c = true →
        (getSalesforceConnection c w).2
          = [NetCall.loginCall (loginUrlOf c) (getStr c.username) (sentPassword c)])
    ∧ (∀ (c : Part000.Config) (w : World) (t : String),
        c.securityToken = some t → t ≠ "" →
        (Part000.getSalesforceConnection c w).2
          = [NetCall.loginCall (jsOr c.loginUrl "https://login.salesforce.com")
              c.username (c.password ++ t)])
    ∧ (∀ (c : Part000.Config) (w : World), c.securityToken = none →
        (Part000.getSalesforceConnection c w).2
          = [NetCall.loginCall (jsOr c.loginUrl "https://login.salesforce.com")
              c.username c.password]) := by
  refine ⟨?_, ?_, ?_, ?_, ?_, ?_⟩
  · intro c t ht hne
    simp [sentPassword, ht, truthy_some t hne, getStr]
  · intro c ht
    simp [sentPassword, ht, truthy]
  · intro c w h3 hrt
    have h3' := h3
    simp only [selCond3, Bool.and_eq_true] at h3'
    obtain ⟨⟨⟨hu, hp⟩, hcid⟩, hcs⟩ := h3'
    unfold getSalesforceConnection
    simp only [hu, hp, hcid, hcs, hrt, Bool.not_true, Bool.and_false, Bool.false_and,
      Bool.and_true, Bool.true_and, Bool.not_false, if_false, if_true]
    cases w.loginResult (loginUrlOf c) (getStr c.username) (sentPassword c) <;> rfl
  · intro c w h4
    rw [branch4_eval c w h4]
    cases w.loginResult (loginUrlOf c) (getStr c.username) (sentPassword c) <;> rfl
  · intro c w t ht hne
    unfold Part000.getSalesforceConnection
    simp only [ht, truthy_some t hne, if_true, getStr, Option.getD_some]
    cases w.loginResult (jsOr c.loginUrl "https://login.salesforce.com")
        c.username (c.password ++ t) <;> rfl
  · intro c w ht
    unfold Part000.getSalesforceConnection
    simp only [ht, truthy, Bool.false_eq_true, if_false]
    cases w.loginResult (jsOr c.loginUrl "https://login.salesforce.com")
        c.username c.password <;> rfl

/-- Witness for C4: the bundle
`{username:"u", password:"p", securityToken:"tok"}` transmits the
password `"ptok"` to the login handshake. -/
theorem password_token_concatenation_witness :
    userPassTokBundle.securityToken = some "tok" ∧ "tok" ≠ ""
    ∧ sentPassword userPassTokBundle = getStr userPassTokBundle.password ++ "tok"
    ∧ sentPassword userPassTokBundle = "ptok"
    ∧ selCond4 userPassTokBundle = true
    ∧ (getSalesforceConnection userPassTokBundle wLoginOk).2
        = [NetCall.loginCall "https://login.salesforce.com" "u" "ptok"] :=
  ⟨rfl, by decide,
   password_token_concatenation.1 userPassTokBundle "tok" rfl (by decide),
   by decide, rfl,
   password_token_concatenation.2.2.2.1 userPassTokBundle wLoginOk rfl⟩

/-- Counterexample to claim C5 as stated: the claim says the
missing-credentials failure message enumerates the acceptable credential
combinations, but the direct-token combination (instanceUrl +
accessToken) is acceptable — selection succeeds on a bundle carrying
only those two fields — while the failure message produced for the empty
bundle mentions neither `accessToken` nor `instanceUrl`, so the
enumeration omits one acceptable combination. -/
theorem missing_credentials_enumeration_counterexample :
    getSalesforceConnection emptyBundle wNone = (.error authMissingMsg, [])
    ∧ select directBundle = .ok (.directToken (some "00Dxx0000001")
        (some "https://org.example.my.salesforce.com"))
    ∧ containsSub authMissingMsg "accessToken" = false
    ∧ containsSub authMissingMsg "instanceUrl" = false :=
  ⟨rfl, rfl, by decide, by decide⟩

/-- Claim C5 as amended: for every credential bundle matching none of
the five strategy conditions, acquisition returns the missing-credentials
failure — never a default or guessed strategy, and with no network call
attempted — and the failure message enumerates four of the five
acceptable credential combinations, omitting the instanceUrl +
accessToken (DirectToken) combination. -/
theorem missing_credentials_failure (c : Config) (w : World)
    (h1 : selCond1 c = false) (h2 : selCond2 c = false) (h3 : selCond3 c = false)
    (h4 : selCond4 c = false) (h5 : selCond5 c = false) :
    getSalesforceConnection c w = (.error authMissingMsg, [])
    ∧ containsSub authMissingMsg "(clientId + clientSecret)" = true
    ∧ containsSub authMissingMsg "(refreshToken + clientId + clientSecret)" = true
    ∧ containsSub authMissingMsg "(username + password + clientId + clientSecret)" = true
    ∧ containsSub authMissingMsg "(username + password)" = true
    ∧ containsSub authMissingMsg "accessToken" = false := by
  refine ⟨?_, by decide, by decide, by decide, by decide, by decide⟩
  simp only [selCond1, selCond2, selCond3, selCond4, selCond5] at *
  unfold getSalesforceConnection
  cases hb1 : truthy c.clientId <;> cases hb2 : truthy c.clientSecret <;>
    cases hb3 : truthy c.username <;> cases hb4 : truthy c.refreshToken <;>
    cases hb5 : truthy c.password <;> cases hb6 : truthy c.instanceUrl <;>
    cases hb7 : truthy c.accessToken <;>
    simp_all

/-- Witness for the amended C5 at the empty bundle. -/
theorem missing_credentials_failure_witness :
    selCond1 emptyBundle = false ∧ selCond2 emptyBundle = false
    ∧ selCond3 emptyBundle = false ∧ selCond4 emptyBundle = false
    ∧ selCond5 emptyBundle = false
    ∧ getSalesforceConnection emptyBundle wNone = (.error authMissingMsg, []) :=
  ⟨rfl, rfl, rfl, rfl, rfl,
   (missing_credentials_failure emptyBundle wNone rfl rfl rfl rfl rfl).1⟩

/-- Claim C6: for every bundle selecting the DirectToken strategy
(instanceUrl and accessToken present, no higher-priority rule matching),
acquisition performs no network call at all: the session is a pure
construction from the already-issued accessToken and instanceUrl. -/
theorem direct_token_no_network (c : Config) (w : World)
    (h5 : selCond5 c = true) (h1 : selCond1 c = false) (h2 : selCond2 c = false)
    (h3 : selCond3 c = false) (h4 : selCond4 c = false) :
    getSalesforceConnection c w =
      (.ok { instanceUrl := c.instanceUrl, accessToken := c.accessToken }, []) := by
  simp only [selCond1, selCond2, selCond3, selCond4, selCond5] at *
  unfold getSalesforceConnection
  cases hb1 : truthy c.clientId <;> cases hb2 : truthy c.clientSecret <;>
    cases hb3 : truthy c.username <;> cases hb4 : truthy c.refreshToken <;>
    cases hb5 : truthy c.password <;> cases hb6 : truthy c.instanceUrl <;>
    cases hb7 : truthy c.accessToken <;>
    simp_all

/-- Witness for C6 at the direct-token bundle: the result is the pure
session and the trace is empty. -/
theorem direct_token_no_network_witness :
    selCond5 directBundle = true ∧ selCond1 directBundle = false
    ∧ selCond2 directBundle = false ∧ selCond3 directBundle = false
    ∧ selCond4 directBundle = false
    ∧ getSalesforceConnection directBundle wNone =
        (.ok { instanceUrl := some "https://org.example.my.salesforce.com",
               accessToken := some "00Dxx0000001" }, []) :=
  ⟨rfl, rfl, rfl, rfl, rfl,
   direct_token_no_network directBundle wNone rfl rfl rfl rfl rfl⟩

/-- Handshake count distributes over trace concatenation. -/
theorem countHandshakes_append (a b : List NetCall) :
    countHandshakes (a ++ b) = countHandshakes a + countHandshakes b := by
  simp [countHandshakes, List.filter_append]

/-- Each `soql_query` invocation under the password-only strategy
performs exactly one session-creation handshake of its own. -/
theorem soql_handshake_once (c : Config) (w : World) (q : String)
    (h4 : selCond4 c = true) :
    countHandshakes (soqlQueryTool c w q).2 = 1 := by
  unfold soqlQueryTool
  rw [branch4_eval c w h4]
  cases w.loginResult (loginUrlOf c) (getStr c.username) (sentPassword c)
  · rfl
  · cases w.queryResult q <;> rfl

/-- Counterexample to claim C7 as stated: the claim says that for
acquire calls for the same bundle while no session is cached, the
handshake is invoked exactly once; but the code caches nothing, so with
the same bundle and environment two `soql_query` invocations perform two
login handshakes (one each), not one. -/
theorem single_flight_counterexample :
    countHandshakes (soqlQueryTool userPassBundle wLoginOk "SELECT Id FROM Account").2 = 1
    ∧ countHandshakes ((soqlQueryTool userPassBundle wLoginOk "SELECT Id FROM Account").2
        ++ (soqlQueryTool userPassBundle wLoginOk "SELECT Id FROM Contact").2) = 2
    ∧ (2 : Nat) ≠ 1 :=
  ⟨rfl, rfl, by decide⟩

/-- Claim C7 as amended: there is no session cache and no in-flight
guard — every tool invocation acquires its own connection, so N
`soql_query` calls for the same bundle perform exactly N login
handshakes, regardless of how the calls interleave (each invocation's
trace depends only on the bundle and the environment, never on shared
state). -/
theorem handshake_per_invocation (c : Config) (w : World) (qs : List String)
    (h4 : selCond4 c = true) :
    countHandshakes (qs.map fun q => (soqlQueryTool c w q).2).flatten = qs.length := by
  induction qs with
  | nil => rfl
  | cons q qs ih =>
      simp only [List.map_cons, List.flatten_cons, countHandshakes_append, ih,
        soql_handshake_once c w q h4, List.length_cons]
      omega

/-- Witness for the amended C7: three invocations, three handshakes. -/
theorem handshake_per_invocation_witness :
    selCond4 userPassBundle = true
    ∧ countHandshakes (([ "q1", "q2", "q3" ].map
        fun q => (soqlQueryTool userPassBundle wLoginOk q).2)).flatten = 3 :=
  ⟨rfl, handshake_per_invocation userPassBundle wLoginOk ["q1", "q2", "q3"] rfl⟩

/-- Counterexample to claim C8 as stated: the claim says that when a
data operation fails with an invalid/expired-session provider response,
the caller invalidates the session and calls acquire again exactly once
before surfacing the failure; but on a query that fails with
`INVALID_SESSION_ID` the handler surfaces the error immediately — its
trace contains exactly one acquisition handshake, not the two that a
re-acquisition cycle would produce. -/
theorem reacquisition_counterexample :
    soqlQueryTool userPassBundle wExpired "SELECT Id FROM Account" =
      ({ text := "Error executing query: INVALID_SESSION_ID: Session expired or invalid",
         isError := true },
       [NetCall.loginCall "https://login.salesforce.com" "u" "p",
        NetCall.soqlQuery "SELECT Id FROM Account"])
    ∧ countHandshakes [NetCall.loginCall "https://login.salesforce.com" "u" "p",
        NetCall.soqlQuery "SELECT Id FROM Account"] = 1
    ∧ (1 : Nat) ≠ 2 :=
  ⟨rfl, rfl, by decide⟩

/-- Claim C8 as amended: when a data operation fails — including with an
invalid/expired-session provider response — the handler performs no
invalidation and no re-acquisition: it surfaces the provider's error
directly as a structured error result, and its trace shows exactly one
acquisition handshake followed by the single data call. -/
theorem no_reacquisition_on_failure (c : Config) (w : World) (q e : String)
    (r : LoginOk) (h4 : selCond4 c = true)
    (hL : w.loginResult (loginUrlOf c) (getStr c.username) (sentPassword c) = .ok r)
    (hQ : w.queryResult q = .error e) :
    soqlQueryTool c w q =
      ({ text := "Error executing query: " ++ e, isError := true },
       [NetCall.loginCall (loginUrlOf c) (getStr c.username) (sentPassword c),
        NetCall.soqlQuery q])
    ∧ countHandshakes (soqlQueryTool c w q).2 = 1 := by
  refine ⟨?_, soql_handshake_once c w q h4⟩
  unfold soqlQueryTool
  rw [branch4_eval c w h4, hL, hQ]
  rfl

/-- Witness for the amended C8 at the expired-session environment. -/
theorem no_reacquisition_on_failure_witness :
    selCond4 userPassBundle = true
    ∧ wExpired.loginResult (loginUrlOf userPassBundle) (getStr userPassBundle.username)
        (sentPassword userPassBundle)
        = .ok { accessToken := "A0", instanceUrl := "https://inst.example" }
    ∧ wExpired.queryResult "SELECT Id FROM Account"
        = .error "INVALID_SESSION_ID: Session expired or invalid"
    ∧ (soqlQueryTool userPassBundle wExpired "SELECT Id FROM Account" =
        ({ text := "Error executing query: INVALID_SESSION_ID: Session expired or invalid",
           isError := true },
         [NetCall.loginCall (loginUrlOf userPassBundle) (getStr userPassBundle.username)
            (sentPassword userPassBundle),
          NetCall.soqlQuery "SELECT Id FROM Account"])
      ∧ countHandshakes (soqlQueryTool userPassBundle wExpired "SELECT Id FROM Account").2 = 1) :=
  ⟨rfl, rfl, rfl,
   no_reacquisition_on_failure userPassBundle wExpired "SELECT Id FROM Account"
     "INVALID_SESSION_ID: Session expired or invalid"
     { accessToken := "A0", instanceUrl := "https://inst.example" } rfl rfl rfl⟩

/-- Claim C9: for every `insert_record` invocation where sobjectType is
absent (or empty, which JS treats the same), or recordData is absent or
has zero fields, the handler returns a structured error result
(`isError` true) and performs no authentication handshake and no network
insert call: its trace is empty. -/
theorem insert_record_validation (c : Config) (w : World) (t : Option String)
    (rd : Option (List (String × String)))
    (h : truthy t = false ∨ rd = none ∨ rd = some []) :
    (insertRecordTool c w t rd).1.isError = true
    ∧ (insertRecordTool c w t rd).2 = [] := by
  unfold insertRecordTool
  rcases h with h | h | h
  · simp [h]
  · cases ht : truthy t <;> simp [ht, h]
  · cases ht : truthy t <;> simp [ht, h]

/-- Witness for C9: absent recordData yields an error result with an
empty trace. -/
theorem insert_record_validation_witness :
    (truthy (some "Contact") = false ∨ (none : Option (List (String × String))) = none
      ∨ (none : Option (List (String × String))) = some [])
    ∧ (insertRecordTool userPassBundle wLoginOk (some "Contact") none).1.isError = true
    ∧ (insertRecordTool userPassBundle wLoginOk (some "Contact") none).2 = [] :=
  ⟨Or.inr (Or.inl rfl),
   insert_record_validation userPassBundle wLoginOk (some "Contact") none
     (Or.inr (Or.inl rfl))⟩

/-- Claim C10: once the arguments are valid and a connection is
acquired, `insert_record` reports success exactly when the provider's
create result (its first element when it is an array) has `success` not
equal to `false` and a present non-empty id; in every other case —
`success` false, missing id, empty array, or a thrown error — it returns
a structured error result, and on success the returned text carries the
created record's id. -/
theorem insert_record_result (c : Config) (w : World) (t : Option String)
    (data : List (String × String)) (conn : Connection) (calls : List NetCall)
    (ht : truthy t = true) (hd : data ≠ [])
    (hconn : getSalesforceConnection c w = (.ok conn, calls)) :
    ((insertRecordTool c w t (some data)).1.isError = false
      ↔ goodCreate (w.createResult (getStr t) data) = true)
    ∧ (∀ (res : CreateRes) (r : SaveRes) (i : String),
        w.createResult (getStr t) data = .ok res →
        firstResult res = some r → r.success ≠ some false → r.id = some i → i ≠ "" →
        (insertRecordTool c w t (some data)).1 =
          { text := "Successfully inserted " ++ getStr t ++ " record.\n\nRecord ID: " ++ i
              ++ "\n\nInserted data:\n" ++ renderRecord data,
            isError := false }) := by
  have hie : data.isEmpty = false := by
    cases data
    · exact absurd rfl hd
    · rfl
  constructor
  · unfold insertRecordTool
    rw [hconn]
    simp only [ht, hie, Bool.not_true, Option.isNone_some, Bool.false_or,
      Bool.false_eq_true, if_false, Option.getD_some]
    cases hc : w.createResult (getStr t) data with
    | error e => simp [goodCreate, hc]
    | ok res =>
        cases hf : firstResult res with
        | none => simp [goodCreate, hc, hf]
        | some r =>
            by_cases hs : r.success = some false
            · simp [goodCreate, hc, hf, hs]
            · cases hid : truthy r.id
              · simp [goodCreate, hc, hf, hs, hid]
              · simp [goodCreate, hc, hf, hs, hid]
  · intro res r i hres hfst hsucc hid hine
    unfold insertRecordTool
    rw [hconn]
    simp only [ht, hie, Bool.not_true, Option.isNone_some, Bool.false_or,
      Bool.false_eq_true, if_false, Option.getD_some]
    rw [hres]
    simp only [hfst]
    rw [if_neg hsucc]
    have hti : truthy r.id = true := by rw [hid]; exact truthy_some i hine
    simp only [hti, Bool.not_true, Bool.false_eq_true, if_false, getStr, hid,
      Option.getD_some, truthy_some i hine]

/-- Witness for C10: a create result with `success: true` and a
non-empty id yields a non-error result (the iff instantiated at a
concrete bundle, environment and record). -/
theorem insert_record_result_witness :
    truthy (some "Contact") = true
    ∧ ([("LastName", "\"Doe\"")] : List (String × String)) ≠ []
    ∧ getSalesforceConnection directBundle wCreateOk =
        (.ok { instanceUrl := some "https://org.example.my.salesforce.com",
               accessToken := some "00Dxx0000001" }, [])
    ∧ ((insertRecordTool directBundle wCreateOk (some "Contact")
          (some [("LastName", "\"Doe\"")])).1.isError = false
        ↔ goodCreate (wCreateOk.createResult "Contact" [("LastName", "\"Doe\"")]) = true)
    ∧ goodCreate (wCreateOk.createResult "Contact" [("LastName", "\"Doe\"")]) = true :=
  ⟨rfl, by decide, rfl,
   (insert_record_result directBundle wCreateOk (some "Contact") [("LastName", "\"Doe\"")]
      { instanceUrl := some "https://org.example.my.salesforce.com",
        accessToken := some "00Dxx0000001" } [] rfl (by decide) rfl).1,
   rfl⟩

end SalesforceMcp
